import Mathlib

/-!
Verification of the paginated harvest engine in `scraping_tp`
(`scraping_tp/csv_creator.py`, `scraping_tp.py`).

The Python code is shallowly embedded: each method becomes a Lean function,
Python dictionaries with possibly-missing keys become structures of `Option`
fields, raised exceptions become `Except PyError`, and the output artifact
(the CSV file) becomes an `Option (List Row)` threaded through the run
(`none` = no file on disk).  Strings manipulated character by character
(`_search_url`) are modelled as `List Char`.
-/

namespace ScrapingTp

/-- Python exceptions that the embedded code can raise. -/
inductive PyError where
  | keyError : String → PyError
  | valueError : String → PyError
  | attributeError : PyError
  | noSuchElement : PyError
  | fetchError : PyError
  | outOfFuel : PyError
deriving DecidableEq, Repr

/-- One CSV data row (7 cells). -/
abbrev Row := List String

/-- `CsvCreator.CSV_HEADER` (csv_creator.py:32). -/
def CSV_HEADER : Row := ["社名", "番号", "住所", "URL", "検索キーワード", "検索地域", "日時"]

/-- The full-page record threshold `PER_PAGE` (csv_creator.py:150, 297). -/
def PER_PAGE : Nat := 20

/-- Python `d[k]` on a dict field: a missing key raises `KeyError k`. -/
def dictGet (v : Option α) (k : String) : Except PyError α :=
  match v with
  | some x => Except.ok x
  | none => Except.error (PyError.keyError k)

/-- The `address` object of a JSON-LD item.  `item.get('address', {})` with a
missing key behaves like an address whose own keys are all missing. -/
structure LdAddress where
  addressLocality : Option String
  streetAddress : Option String
deriving DecidableEq, Repr

/-- The `item` object of one JSON-LD listing entry. -/
structure LdItem where
  name : Option String
  telephone : Option String
  address : Option LdAddress
  url : Option String
deriving DecidableEq, Repr

/-- One entry of the parsed `application/ld+json` block. -/
structure LdEntry where
  item : Option LdItem
deriving DecidableEq, Repr

/-- `element.get('item', {})`: a missing item is a dict with no keys. -/
def emptyLdItem : LdItem := ⟨none, none, none, none⟩

/-- `{}` result of `item.get('address', {})`. -/
def emptyLdAddress : LdAddress := ⟨none, none⟩

/-- Builds one CSV row from a JSON-LD entry, mirroring the body of the loop in
`RequestsCsvCreator._write_csv_by_json` (csv_creator.py:197-210): `item['name']`
(KeyError if absent), the empty-name check raising ValueError, `item['telephone']`,
`address['addressLocality']` ++ `address.get('streetAddress', '')`, `item['url']`,
then keyword, area and the timestamp string. -/
def jsonRow (keyword area now : String) (e : LdEntry) : Except PyError Row := do
  let item := e.item.getD emptyLdItem
  let companyName ← dictGet item.name "name"
  if companyName = "" then
    throw (PyError.valueError "company name is none.")
  let telephone ← dictGet item.telephone "telephone"
  let address := item.address.getD emptyLdAddress
  let locality ← dictGet address.addressLocality "addressLocality"
  let street := address.streetAddress.getD ""
  let url ← dictGet item.url "url"
  pure [companyName, telephone, locality ++ street, url, keyword, area, now]

/-- `RequestsCsvCreator._write_csv_by_json` (csv_creator.py:192-216): one row is
appended to the file per entry, so rows written before a raising entry persist;
the returned count is the number of rows written when no entry raises. -/
def writeCsvByJson (keyword area now : String) : List LdEntry → List Row × Except PyError Nat
  | [] => ([], Except.ok 0)
  | e :: rest =>
    match jsonRow keyword area now e with
    | Except.error err => ([], Except.error err)
    | Except.ok row =>
      match writeCsvByJson keyword area now rest with
      | (rows, Except.ok n) => (row :: rows, Except.ok (n + 1))
      | (rows, Except.error err) => (row :: rows, Except.error err)

/-- One DOM listing container as the scraper sees it: each field holds the text
of the selected child element, or `none` when the selector matches nothing.
`websiteEl` is `some href?` when the link element exists, with `href?` its
(possibly missing) `href` attribute. -/
structure HtmlContainer where
  nameEl : Option String
  telEl : Option String
  addressEl : Option String
  websiteEl : Option (Option String)
deriving DecidableEq, Repr

/-- Builds one CSV row from a DOM container, mirroring the loop body of
`RequestsCsvCreator._write_csv_by_html` (csv_creator.py:223-248): a missing name
element raises ValueError; a missing phone or address element means Python calls
`.text` on `None`, raising AttributeError; a missing website element yields `''`
(and a missing `href` attribute yields `None`, written as an empty CSV cell). -/
def htmlRow (keyword area now : String) (c : HtmlContainer) : Except PyError Row := do
  let companyName ← match c.nameEl with
    | none => throw (PyError.valueError "company name is none.")
    | some t => pure t
  let telephone ← match c.telEl with
    | none => throw PyError.attributeError
    | some t => pure t
  let address ← match c.addressEl with
    | none => throw PyError.attributeError
    | some t => pure t
  let website := match c.websiteEl with
    | none => ""
    | some href => href.getD ""
  pure [companyName, telephone, address, website, keyword, area, now]

/-- `RequestsCsvCreator._write_csv_by_html` (csv_creator.py:218-250). -/
def writeCsvByHtml (keyword area now : String) : List HtmlContainer → List Row × Except PyError Nat
  | [] => ([], Except.ok 0)
  | c :: rest =>
    match htmlRow keyword area now c with
    | Except.error err => ([], Except.error err)
    | Except.ok row =>
      match writeCsvByHtml keyword area now rest with
      | (rows, Except.ok n) => (row :: rows, Except.ok (n + 1))
      | (rows, Except.error err) => (row :: rows, Except.error err)

/-- Builds one CSV row from a container in `SeleniumCsvCreator._write_csv`
(csv_creator.py:317-333 and 339-355): `find_element` raises
NoSuchElementException when the child is absent; the website is read with
`find_elements`, an empty match list yielding `''`. -/
def seleniumRow (keyword area now : String) (c : HtmlContainer) : Except PyError Row := do
  let companyName ← match c.nameEl with
    | none => throw PyError.noSuchElement
    | some t => pure t
  let telephone ← match c.telEl with
    | none => throw PyError.noSuchElement
    | some t => pure t
  let address ← match c.addressEl with
    | none => throw PyError.noSuchElement
    | some t => pure t
  let website := match c.websiteEl with
    | none => ""
    | some href => href.getD ""
  pure [companyName, telephone, address, website, keyword, area, now]

/-- One pass of the per-container loop in `SeleniumCsvCreator._write_csv` over a
single `find_elements` result list: rows written before a raising container
persist in the file. -/
def seleniumScrape (keyword area now : String) : List HtmlContainer → List Row × Except PyError Unit
  | [] => ([], Except.ok ())
  | c :: rest =>
    match seleniumRow keyword area now c with
    | Except.error err => ([], Except.error err)
    | Except.ok row =>
      match seleniumScrape keyword area now rest with
      | (rows, res) => (row :: rows, res)

/-- Raw content of one fetched results page: the optional embedded
`application/ld+json` block, and the DOM listing containers of the two zones
(`dev-only-search-result-itemContainer` and
`dev-only-search-searchResultsBottom-itemContainer`, in document order). -/
structure Page where
  jsonLd : Option (List LdEntry)
  topContainers : List HtmlContainer
  bottomContainers : List HtmlContainer

/-- Per-page extraction of `RequestsCsvCreator._write_csv`
(csv_creator.py:164-177): `soup.find('script', type='application/ld+json')`
decides the branch; the JSON branch runs `_write_csv_by_json`, the HTML branch
runs `_write_csv_by_html` on the comma-selector result (both container zones in
document order). -/
def requestsProcessPage (keyword area now : String) (p : Page) : List Row × Except PyError Nat :=
  match p.jsonLd with
  | some entries => writeCsvByJson keyword area now entries
  | none => writeCsvByHtml keyword area now (p.topContainers ++ p.bottomContainers)

/-- Per-page extraction of `SeleniumCsvCreator._write_csv`
(csv_creator.py:315-357): scrape the top containers, then the bottom containers;
`row_count` is the sum of the two `len(elements)` when no container raises.
No `ld+json` lookup occurs anywhere in this method. -/
def seleniumProcessPage (keyword area now : String) (p : Page) : List Row × Except PyError Nat :=
  match seleniumScrape keyword area now p.topContainers with
  | (rowsTop, Except.error err) => (rowsTop, Except.error err)
  | (rowsTop, Except.ok ()) =>
    match seleniumScrape keyword area now p.bottomContainers with
    | (rowsBottom, Except.error err) => (rowsTop ++ rowsBottom, Except.error err)
    | (rowsBottom, Except.ok ()) =>
      (rowsTop ++ rowsBottom, Except.ok (p.topContainers.length + p.bottomContainers.length))

/-- The `while True` pagination loop of `_write_csv` for one area
(csv_creator.py:160-188 / 306-367), abstracted over the per-page fetch+extract
step `proc : page number → (rows appended, count or error)`.  Returns the rows
appended, the loop outcome, and the values of the `page` / `company_count`
variables when the loop exits (after `break` they are `1` and `0`).  `fuel`
bounds the number of iterations; exhaustion is reported as the modelling
artifact `PyError.outOfFuel` (the Python loop would simply keep running). -/
def runArea (proc : Nat → List Row × Except PyError Nat) :
    Nat → Nat → Nat → List Row × Except PyError Unit × Nat × Nat
  | 0, page, count => ([], Except.error PyError.outOfFuel, page, count)
  | fuel + 1, page, count =>
    match proc page with
    | (rows, Except.error err) => (rows, Except.error err, page, count)
    | (rows, Except.ok rowCount) =>
      let count2 := count + rowCount
      if rowCount < PER_PAGE then
        (rows, Except.ok (), 1, 0)
      else
        match runArea proc fuel (page + 1) count2 with
        | (rows2, res2, p3, c3) => (rows ++ rows2, res2, p3, c3)

/-- The `for area in self.areas` loop of `_write_csv` (csv_creator.py:156-188 /
303-367), threading the shared `page` / `company_count` variables from one
area's loop exit into the next area's loop entry, exactly as the Python locals
persist across iterations of the `for` loop. -/
def writeCsvAreas (proc : String → Nat → List Row × Except PyError Nat) (fuel : Nat) :
    List String → Nat → Nat → List Row × Except PyError Unit
  | [], _, _ => ([], Except.ok ())
  | area :: rest, page, count =>
    match runArea (proc area) fuel page count with
    | (rows, Except.error err, _, _) => (rows, Except.error err)
    | (rows, Except.ok (), p2, c2) =>
      match writeCsvAreas proc fuel rest p2 c2 with
      | (rows2, res2) => (rows ++ rows2, res2)

/-- `_write_csv` after the header has been written: `page = 1`,
`company_count = 0`, then the area loop (csv_creator.py:148-188). -/
def writeCsvRun (proc : String → Nat → List Row × Except PyError Nat) (fuel : Nat)
    (areas : List String) : List Row × Except PyError Unit :=
  writeCsvAreas proc fuel areas 1 0

/-- `CsvCreator._on_error` (csv_creator.py:79-82): remove the output file if it
exists.  The only state it touches is the artifact. -/
def onError : Option (List Row) → Option (List Row)
  | some _ => none
  | none => none

/-- `CsvCreator.create` (csv_creator.py:43-51) for the requests variant, acting
on the artifact: `_setUp`, `_write_csv` (header truncate-write, then the area
loop appending rows), `_tearDown`; any exception is caught and `_on_error`
deletes the artifact.  `setUpErr` / `tearDownErr` stand for exceptions raised by
the file-system work of `_setUp` / `_tearDown`.  Returns the final artifact and
the exception `create` caught internally (it never re-raises). -/
def createRequests (setUpErr tearDownErr : Option PyError)
    (proc : String → Nat → List Row × Except PyError Nat) (fuel : Nat)
    (areas : List String) (fs0 : Option (List Row)) :
    Option (List Row) × Option PyError :=
  match setUpErr with
  | some e => (onError fs0, some e)
  | none =>
    match writeCsvRun proc fuel areas with
    | (rows, res) =>
      let fs1 : Option (List Row) := some (CSV_HEADER :: rows)
      match res with
      | Except.error e => (onError fs1, some e)
      | Except.ok () =>
        match tearDownErr with
        | some e => (onError fs1, some e)
        | none => (fs1, none)

/-- Run state visible to `SeleniumCsvCreator`: whether the browsing session is
open, how many times it has been torn down (`driver.close()`/`driver.quit()`
pair), and the output artifact. -/
structure SelRunState where
  driverOpen : Bool
  driverCloseCount : Nat
  artifact : Option (List Row)
deriving DecidableEq, Repr

/-- `CsvCreator._on_error` as seen by the selenium variant: it inherits the base
handler, which only removes the output file (csv_creator.py:79-82). -/
def selOnError (s : SelRunState) : SelRunState := { s with artifact := none }

/-- The driver part of `SeleniumCsvCreator._tearDown` (csv_creator.py:376-377):
`driver.close(); driver.quit()` — one teardown of the session. -/
def selTearDown (s : SelRunState) : SelRunState :=
  { s with driverOpen := false, driverCloseCount := s.driverCloseCount + 1 }

/-- `CsvCreator.create` for the selenium variant (csv_creator.py:43-51 with the
overrides at 264-289 and 371-377).  `browserKnown` is whether `_setUp` reaches
the driver construction (an unknown browser raises ValueError first);
`rowsWritten` / `outcome` are what `_write_csv` appended and whether it raised;
`tearDownDirErr` stands for an exception of the `shutil.rmtree` call that
`_tearDown` runs before closing the driver. -/
def seleniumCreate (browserKnown : Bool) (rowsWritten : List Row)
    (outcome : Except PyError Unit) (tearDownDirErr : Option PyError)
    (s0 : SelRunState) : SelRunState :=
  if browserKnown then
    let s1 : SelRunState := { s0 with driverOpen := true, artifact := none }
    let s2 : SelRunState := { s1 with artifact := some (CSV_HEADER :: rowsWritten) }
    match outcome with
    | Except.error _ => selOnError s2
    | Except.ok () =>
      match tearDownDirErr with
      | some _ => selOnError s2
      | none => selTearDown s2
  else
    selOnError s0

/-- The exception escaping the `try` body of `CsvCreator.create`
(csv_creator.py:45-48): first of the `_setUp` error, the `_write_csv` error and
the `_tearDown` error, in execution order. -/
def createBodyOutcome (setUpErr tearDownErr : Option PyError)
    (writeOutcome : Except PyError Unit) : Except PyError Unit :=
  match setUpErr with
  | some e => Except.error e
  | none =>
    match writeOutcome with
    | Except.error e => Except.error e
    | Except.ok () =>
      match tearDownErr with
      | some e => Except.error e
      | none => Except.ok ()

/-- The `try ... except Exception` of `CsvCreator.create` (csv_creator.py:45-51):
every exception of the body is caught, the handler runs to completion, and
`create` returns normally. -/
def pyCreateCatch : Except PyError Unit → Except PyError Unit
  | Except.ok () => Except.ok ()
  | Except.error _ => Except.ok ()

/-- CPython's exit status for `main()`: `0` when `main` returns, `1` when an
uncaught exception escapes it. -/
def exitCodeOf : Except PyError Unit → Nat
  | Except.ok _ => 0
  | Except.error _ => 1

/-- Process exit status of a run that reaches `creator.create()`
(scraping_tp.py:45 with csv_creator.py:43-51). -/
def runExitCode (setUpErr tearDownErr : Option PyError)
    (writeOutcome : Except PyError Unit) : Nat :=
  exitCodeOf (pyCreateCatch (createBodyOutcome setUpErr tearDownErr writeOutcome))

/-- The keyword-argument dictionary handed to `CsvCreatorFactory`: each field is
`some v` when the key is present.  The keys are the five argparse results of
`get_args` plus the four settings-derived entries (scraping_tp.py:24-37), and
`interval`, which `CsvCreator.__init__` reads (csv_creator.py:41). -/
structure Kwargs where
  keyword : Option String
  lib : Option String
  browser : Option String
  timeout : Option Nat
  retry : Option Nat
  filename : Option String
  encoding : Option String
  uri : Option String
  areas : Option (List String)
  interval : Option Nat

/-- The attributes `CsvCreator.__init__` stores (csv_creator.py:34-41). -/
structure CreatorState where
  areas : List String
  keyword : String
  filename : String
  encoding : String
  uri : String
  timeout : Nat
  interval : Nat

/-- `CsvCreator.__init__` (csv_creator.py:34-41): reads
`kwargs['areas']`, `['keyword']`, `['filename']`, `['encoding']`, `['uri']`,
`['timeout']`, `['interval']` in that order; a missing key raises `KeyError`. -/
def csvCreatorInit (kw : Kwargs) : Except PyError CreatorState := do
  let areas ← dictGet kw.areas "areas"
  let keyword ← dictGet kw.keyword "keyword"
  let filename ← dictGet kw.filename "filename"
  let encoding ← dictGet kw.encoding "encoding"
  let uri ← dictGet kw.uri "uri"
  let timeout ← dictGet kw.timeout "timeout"
  let interval ← dictGet kw.interval "interval"
  pure ⟨areas, keyword, filename, encoding, uri, timeout, interval⟩

/-- `SeleniumCsvCreator.__init__` (csv_creator.py:256-261): `super().__init__`
first, then `kwargs['browser']`. -/
def seleniumCsvCreatorInit (kw : Kwargs) : Except PyError (CreatorState × String) := do
  let base ← csvCreatorInit kw
  let browser ← dictGet kw.browser "browser"
  pure (base, browser)

/-- The creator instance the factory returns. -/
inductive Creator where
  | requestsCreator : CreatorState → Creator
  | seleniumCreator : CreatorState → String → Creator

/-- `CsvCreatorFactory.create_csv_creator` (csv_creator.py:92-101). -/
def createCsvCreator (kw : Kwargs) : Except PyError Creator := do
  let lib ← dictGet kw.lib "lib"
  if lib = "requests" then
    let s ← csvCreatorInit kw
    pure (Creator.requestsCreator s)
  else if lib = "selenium" then
    let r ← seleniumCsvCreatorInit kw
    pure (Creator.seleniumCreator r.1 r.2)
  else
    throw (PyError.valueError ("Unknown type: " ++ lib))

/-- The values `config.settings` supplies to `get_args`
(scraping_tp.py:34-37); `areas` is the dict's value lists in order. -/
structure Settings where
  filename : String
  csvFileEncoding : String
  uri : String
  areas : List (List String)

/-- The `--lib` argparse choices (scraping_tp.py:25-27). -/
inductive LibChoice where
  | requests
  | selenium

/-- The string argparse stores for a `--lib` choice. -/
def LibChoice.value : LibChoice → String
  | LibChoice.requests => "requests"
  | LibChoice.selenium => "selenium"

/-- The `--browser` argparse choices (scraping_tp.py:28). -/
inductive BrowserChoice where
  | chrome
  | firefox

/-- The string argparse stores for a `--browser` choice. -/
def BrowserChoice.value : BrowserChoice → String
  | BrowserChoice.chrome => "chrome"
  | BrowserChoice.firefox => "firefox"

/-- `get_args` of scraping_tp.py (lines 21-38): the five parsed flags plus
`filename`, `encoding`, `uri` and the flattened `areas` from settings.  No
`interval` key is ever added. -/
def getArgs (keyword : String) (lib : LibChoice) (browser : BrowserChoice)
    (timeout retry : Nat) (s : Settings) : Kwargs :=
  { keyword := some keyword
    lib := some lib.value
    browser := some browser.value
    timeout := some timeout
    retry := some retry
    filename := some s.filename
    encoding := some s.csvFileEncoding
    uri := some s.uri
    areas := some s.areas.flatten
    interval := none }

/-- `creator.create()` dispatched on the constructed creator, with a fetch
oracle supplying page content per (area, page).  `create` catches every
exception internally, so the returned `Except` is always `ok`. -/
def runCreator (c : Creator) (fetch : String → Nat → Page) (now : String)
    (fuel : Nat) (fs0 : Option (List Row)) : Option (List Row) × Except PyError Unit :=
  match c with
  | Creator.requestsCreator st =>
    ((createRequests none none
        (fun area page => requestsProcessPage st.keyword area now (fetch area page))
        fuel st.areas fs0).1,
     Except.ok ())
  | Creator.seleniumCreator st _browser =>
    match writeCsvRun
        (fun area page => seleniumProcessPage st.keyword area now (fetch area page))
        fuel st.areas with
    | (rows, res) => ((seleniumCreate true rows res none ⟨false, 0, fs0⟩).artifact, Except.ok ())

/-- `main()` of scraping_tp.py (lines 41-45) from a kwargs dictionary: build the
creator, then run it; an exception in construction escapes `main` before
`create` runs, leaving the artifact untouched. -/
def mainFromKwargs (kw : Kwargs) (fetch : String → Nat → Page) (now : String)
    (fuel : Nat) (fs0 : Option (List Row)) : Option (List Row) × Except PyError Unit :=
  match createCsvCreator kw with
  | Except.error e => (fs0, Except.error e)
  | Except.ok c => runCreator c fetch now fuel fs0

/-- The characters before the first occurrence of `c`: Python
`s.split(c)[0]`, and also `s[:s.index(c)]` used to strip query and fragment. -/
def takeUntil (c : Char) : List Char → List Char
  | [] => []
  | x :: xs => if x = c then [] else x :: takeUntil c xs

/-- `os.path.basename`: the characters after the last `'/'` (the whole string
when it has no `'/'`). -/
def afterLastSlash (l : List Char) : List Char :=
  ((l.reverse.takeWhile fun c => c != '/').reverse)

/-- `os.path.splitext` on a basename: split at the last `'.'`, except that a
name whose characters before that dot are all dots has no extension. -/
def splitextList (l : List Char) : List Char × List Char :=
  let r := l.reverse
  let extRev := r.takeWhile fun c => c != '.'
  if extRev.length = r.length then (l, [])
  else
    let stemRev := r.drop (extRev.length + 1)
    if stemRev.all fun c => c == '.' then (l, [])
    else (stemRev.reverse, '.' :: extRev.reverse)

/-- Python `str.zfill` on an unsigned digit string: left-pad with `'0'` to at
least `width` characters. -/
def zfill (width : Nat) (s : List Char) : List Char :=
  List.replicate (width - s.length) '0' ++ s

/-- Worker for `replaceAll`; `fuel` starts at the string length, which always
suffices because every step consumes at least one character. -/
def replaceAllGo (pat rep : List Char) : Nat → List Char → List Char
  | _, [] => []
  | 0, l => l
  | fuel + 1, x :: xs =>
    if pat ≠ [] ∧ pat.isPrefixOf (x :: xs) then
      rep ++ replaceAllGo pat rep fuel (xs.drop (pat.length - 1))
    else
      x :: replaceAllGo pat rep fuel xs

/-- Python `str.replace(pat, rep)`: replace every non-overlapping occurrence,
leftmost first.  (Python's special behaviour on an empty `pat` — inserting `rep`
between all characters — is not modelled; every use here has a non-empty
pattern.) -/
def replaceAll (pat rep s : List Char) : List Char :=
  replaceAllGo pat rep s.length s

/-- `self.uri.startswith('http')` (csv_creator.py:62, 125). -/
def startsWithHttp (l : List Char) : Bool :=
  "http".toList.isPrefixOf l

/-- `urlparse(url).path` restricted to what `os.path.basename` consumes: the
locator with fragment and query stripped.  (`urlparse` also splits off a
scheme, but that never affects the portion after the last `'/'` for the
slash-containing locators considered here.) -/
def pathOfUri (l : List Char) : List Char :=
  takeUntil '?' (takeUntil '#' l)

/-- `CsvCreator._search_url` (csv_creator.py:61-69).  Remote locators get the
query-string form; local locators get the basename rewritten to
`first-underscore-part + '_' + zero-padded page token + extension`, substituted
into the locator with `str.replace`. -/
def searchUrl (uri : List Char) (fromParam : Nat) (areaParam keywordParam : List Char) :
    List Char :=
  if startsWithHttp uri then
    uri ++ "/keyword?from=".toList ++ (Nat.repr fromParam).toList
        ++ "&areaword=".toList ++ areaParam
        ++ "&keyword=".toList ++ keywordParam ++ "&sort=01".toList
  else
    let originalFilename := afterLastSlash (pathOfUri uri)
    let se := splitextList originalFilename
    let newFilename :=
      takeUntil '_' se.1 ++ '_' :: (zfill 2 (Nat.repr (fromParam / 20 + 1)).toList ++ se.2)
    replaceAll originalFilename newFilename uri

/-- How `RequestsCsvCreator.__beautiful_soup_instance` obtains the content. -/
inductive FetchKind where
  | network
  | localFile
deriving DecidableEq, Repr

/-- `RequestsCsvCreator.__beautiful_soup_instance` (csv_creator.py:121-142):
for an `http` locator, a network request to `url&from=N`; otherwise a local
file read, of the offset-suffixed variant when `from_param` is non-zero (Python
truthiness of the integer) and of `url` itself when it is zero. -/
def beautifulSoupTarget (url : List Char) (fromParam : Nat) : FetchKind × List Char :=
  if startsWithHttp url then
    (FetchKind.network, url ++ "&from=".toList ++ (Nat.repr fromParam).toList)
  else
    let originalFilename := afterLastSlash (pathOfUri url)
    let se := splitextList originalFilename
    let target :=
      if fromParam ≠ 0 then
        replaceAll originalFilename
          (takeUntil '_' se.1 ++ '_' :: (zfill 2 (Nat.repr (fromParam / 20 + 1)).toList ++ se.2))
          url
      else url
    (FetchKind.localFile, target)

/-- A JSON-LD entry used in concrete checks. -/
def ldEntryA : LdEntry :=
  ⟨some ⟨some "A", some "03-1111", some ⟨some "Tokyo", some "1-2-3"⟩, some "http://a.example"⟩⟩

/-- A DOM container used in concrete checks; its fields differ from `ldEntryA`. -/
def containerB : HtmlContainer :=
  ⟨some "B", some "06-2222", some "Osaka 4-5", some (some "http://b.example")⟩

/-- A page carrying both a structured block and a DOM container. -/
def pageWithBlock : Page := ⟨some [ldEntryA], [containerB], []⟩

/-- A DOM container whose company-name element exists but holds empty text. -/
def containerEmptyName : HtmlContainer :=
  ⟨some "", some "03-0000", some "Nagoya 1-1", none⟩

instance [DecidableEq ε] [DecidableEq α] : DecidableEq (Except ε α) := fun x y =>
  match x, y with
  | Except.ok a, Except.ok b => decidable_of_iff (a = b) (by simp)
  | Except.ok _, Except.error _ => isFalse (by simp)
  | Except.error _, Except.ok _ => isFalse (by simp)
  | Except.error e, Except.error f => decidable_of_iff (e = f) (by simp)

/-- A list is a Boolean prefix of itself. -/
theorem isPrefixOf_self (l : List Char) : l.isPrefixOf l = true := by
  induction l with
  | nil => rfl
  | cons x xs ih => simp [List.isPrefixOf, ih]

/-- `takeUntil` leaves a list without the cut character unchanged. -/
theorem takeUntil_of_not_mem {c : Char} : ∀ {l : List Char}, c ∉ l → takeUntil c l = l
  | [], _ => rfl
  | x :: xs, h => by
    have hx : ¬ x = c := fun hxc => h (hxc ▸ List.mem_cons_self x xs)
    have hxs : c ∉ xs := fun hm => h (List.mem_cons_of_mem x hm)
    simp [takeUntil, hx, takeUntil_of_not_mem hxs]

/-- `takeWhile` collects exactly the prefix before the first failing element. -/
theorem takeWhile_middle {p : Char → Bool} :
    ∀ (a : List Char) (b : Char) (c : List Char),
    (∀ x ∈ a, p x = true) → p b = false → (a ++ b :: c).takeWhile p = a
  | [], b, c, _, hb => by simp [List.takeWhile_cons, hb]
  | x :: a, b, c, ha, hb => by
    have hx : p x = true := ha x (List.mem_cons_self x a)
    simp [List.takeWhile_cons, hx, takeWhile_middle a b c (fun y hy => ha y (List.mem_cons_of_mem x hy)) hb]

/-- `os.path.basename` of a locator ending in `'/' :: f` with a slash-free `f`. -/
theorem afterLastSlash_append (d f : List Char) (hf : '/' ∉ f) :
    afterLastSlash (d ++ '/' :: f) = f := by
  unfold afterLastSlash
  have hrev : (d ++ '/' :: f).reverse = f.reverse ++ '/' :: d.reverse := by
    simp [List.reverse_append]
  rw [hrev, takeWhile_middle f.reverse '/' d.reverse ?_ (by simp), List.reverse_reverse]
  intro x hx
  have : x ∈ f := List.mem_reverse.mp hx
  have : ¬ x = '/' := fun hc => hf (hc ▸ this)
  simpa using this

/-- Unfolding equation of `replaceAllGo` on the empty string. -/
theorem replaceAllGo_nil (pat rep : List Char) (fuel : Nat) :
    replaceAllGo pat rep fuel [] = [] := by
  cases fuel <;> rfl

/-- Unfolding equation of `replaceAllGo` with fuel left on a non-empty string. -/
theorem replaceAllGo_cons (pat rep : List Char) (fuel : Nat) (x : Char) (xs : List Char) :
    replaceAllGo pat rep (fuel + 1) (x :: xs) =
      if pat ≠ [] ∧ pat.isPrefixOf (x :: xs) then
        rep ++ replaceAllGo pat rep fuel (xs.drop (pat.length - 1))
      else
        x :: replaceAllGo pat rep fuel xs := rfl

/-- `str.replace` worker: when the pattern occurs only as the final segment,
the replacement rewrites exactly that segment. -/
theorem replaceAllGo_unique (pat rep : List Char) (hpat : pat ≠ []) :
    ∀ (d : List Char) (fuel : Nat), d.length + 1 ≤ fuel →
    (∀ i, i < d.length → pat.isPrefixOf ((d ++ pat).drop i) = false) →
    replaceAllGo pat rep fuel (d ++ pat) = d ++ rep
  | [], fuel, hfuel, _ => by
    cases fuel with
    | zero => omega
    | succ fuel =>
      cases pat with
      | nil => exact absurd rfl hpat
      | cons y ys =>
        rw [List.nil_append, replaceAllGo_cons,
          if_pos ⟨hpat, isPrefixOf_self (y :: ys)⟩]
        simp [replaceAllGo_nil, List.drop_length]
  | x :: d', fuel, hfuel, h => by
    cases fuel with
    | zero => omega
    | succ fuel =>
      have hx : pat.isPrefixOf (x :: (d' ++ pat)) = false := by
        have h0 := h 0 (by simp)
        simpa using h0
      rw [List.cons_append, replaceAllGo_cons, if_neg ?_]
      · have ih := replaceAllGo_unique pat rep hpat d' fuel (by simpa using Nat.lt_succ_iff.mp hfuel) ?_
        · rw [ih, List.cons_append]
        · intro i hi
          have := h (i + 1) (by simpa using Nat.succ_lt_succ hi)
          simpa [List.drop_succ_cons] using this
      · rintro ⟨-, hp⟩
        rw [hx] at hp
        exact Bool.false_ne_true hp

/-- `str.replace` on a string ending in its pattern, when the pattern occurs
nowhere earlier. -/
theorem replaceAll_of_unique (pat rep d : List Char) (hpat : pat ≠ [])
    (h : ∀ i, i < d.length → pat.isPrefixOf ((d ++ pat).drop i) = false) :
    replaceAll pat rep (d ++ pat) = d ++ rep := by
  have hlen : d.length + 1 ≤ (d ++ pat).length := by
    have : 0 < pat.length := List.length_pos.mpr hpat
    simp [List.length_append]
    omega
  exact replaceAllGo_unique pat rep hpat d ((d ++ pat).length) hlen h

/-- When the pagination loop of an area exits normally, the shared `page` and
`company_count` variables have been reset to `1` and `0` by the `break` path. -/
theorem runArea_ok_resets (proc : Nat → List Row × Except PyError Nat) :
    ∀ (fuel page count : Nat),
    (runArea proc fuel page count).2.1 = Except.ok () →
    (runArea proc fuel page count).2.2 = (1, 0)
  | 0, page, count => by simp [runArea]
  | fuel + 1, page, count => by
    intro h
    rw [runArea] at h ⊢
    rcases hp : proc page with ⟨rows, res⟩
    rw [hp] at h
    cases res with
    | error e => simp at h
    | ok rowCount =>
      by_cases hlt : rowCount < PER_PAGE
      · simp [hlt]
      · simp only [hlt, if_false] at h ⊢
        rcases hr : runArea proc fuel (page + 1) (count + rowCount) with ⟨rows2, res2, p3, c3⟩
        rw [hr] at h
        simp at h ⊢
        have ihres := runArea_ok_resets proc fuel (page + 1) (count + rowCount)
        rw [hr] at ihres
        simpa using ihres (by simpa using h)

/-- C2: in the per-area pagination loop, a page yielding exactly 20 records
makes the loop run another iteration for the same area with the page number
incremented by 1 (`page += 1`); a page yielding strictly fewer than 20 records
ends the loop with the page counter reset to 1 and the area record count reset
to 0; and a normally-terminated area is followed by the next area's loop
starting from those reset counters (page 1, count 0). -/
theorem c2_pagination_termination
    (proc : Nat → List Row × Except PyError Nat) (fuel page count : Nat)
    (rows : List Row) (k : Nat)
    (procA : String → Nat → List Row × Except PyError Nat) (area : String)
    (rest : List String) :
    (proc page = (rows, Except.ok 20) →
      runArea proc (fuel + 1) page count
        = (rows ++ (runArea proc fuel (page + 1) (count + 20)).1,
           (runArea proc fuel (page + 1) (count + 20)).2))
    ∧ (proc page = (rows, Except.ok k) → k < 20 →
      runArea proc (fuel + 1) page count = (rows, Except.ok (), 1, 0))
    ∧ ((runArea (procA area) fuel 1 0).2.1 = Except.ok () →
      writeCsvAreas procA fuel (area :: rest) 1 0
        = ((runArea (procA area) fuel 1 0).1 ++ (writeCsvAreas procA fuel rest 1 0).1,
           (writeCsvAreas procA fuel rest 1 0).2)) := by
  refine ⟨?_, ?_, ?_⟩
  · intro h
    rw [runArea, h]
    have h20 : ¬ (20 : Nat) < PER_PAGE := by simp [PER_PAGE]
    simp only [h20, if_false]
  · intro h hk
    rw [runArea, h]
    have hlt : k < PER_PAGE := by simpa [PER_PAGE] using hk
    simp [hlt]
  · intro h
    rw [writeCsvAreas]
    rcases hr : runArea (procA area) fuel 1 0 with ⟨rows1, res1, p2, c2⟩
    rw [hr] at h
    simp only at h
    subst h
    have hreset := runArea_ok_resets (procA area) fuel 1 0
    rw [hr] at hreset
    have hpc : (p2, c2) = (1, 0) := by simpa using hreset (by simp)
    have hp2 : p2 = 1 := by simpa using congrArg Prod.fst hpc
    have hc2 : c2 = 0 := by simpa using congrArg Prod.snd hpc
    subst hp2
    subst hc2
    rcases hw : writeCsvAreas procA fuel rest 1 0 with ⟨rows2, res2⟩
    simp [hr, hw]

/-- Witness for C2 at concrete inputs: a full page of 20 records continues to
the next page number; a 1-record page terminates the area with the counters
reset; a terminated area advances to the next area starting at page 1. -/
theorem c2_pagination_termination_witness :
    (runArea (fun _ => ([], Except.ok 20)) 2 1 0
      = ([] ++ (runArea (fun _ => ([], Except.ok 20)) 1 2 20).1,
         (runArea (fun _ => ([], Except.ok 20)) 1 2 20).2))
    ∧ (runArea (fun _ => ([["r"]], Except.ok 1)) 1 1 0 = ([["r"]], Except.ok (), 1, 0))
    ∧ (writeCsvAreas (fun _ _ => ([], Except.ok 0)) 1 ["A", "B"] 1 0
      = ((runArea ((fun _ _ => ([], Except.ok 0)) "A") 1 1 0).1
           ++ (writeCsvAreas (fun _ _ => ([], Except.ok 0)) 1 ["B"] 1 0).1,
         (writeCsvAreas (fun _ _ => ([], Except.ok 0)) 1 ["B"] 1 0).2)) :=
  ⟨(c2_pagination_termination (fun _ => ([], Except.ok 20)) 1 1 0 [] 0
      (fun _ _ => ([], Except.ok 0)) "A" []).1 rfl,
   (c2_pagination_termination (fun _ => ([["r"]], Except.ok 1)) 0 1 0 [["r"]] 1
      (fun _ _ => ([], Except.ok 0)) "A" []).2.1 rfl (by decide),
   (c2_pagination_termination (fun _ => ([], Except.ok 20)) 1 1 0 [] 0
      (fun _ _ => ([], Except.ok 0)) "A" ["B"]).2.2 rfl⟩

/-- C7: a structured entry with a non-empty name and present locality yields a
record whose address cell is the locality concatenated with the street with no
separator, the street defaulting to the empty string when absent; when the
street part is empty the address equals the locality exactly. -/
theorem c7_address_concatenation (keyword area now n t loc u : String)
    (streetOpt : Option String) (hn : ¬ n = "") :
    jsonRow keyword area now ⟨some ⟨some n, some t, some ⟨some loc, streetOpt⟩, some u⟩⟩
      = Except.ok [n, t, loc ++ streetOpt.getD "", u, keyword, area, now]
    ∧ (streetOpt.getD "" = "" →
      jsonRow keyword area now ⟨some ⟨some n, some t, some ⟨some loc, streetOpt⟩, some u⟩⟩
        = Except.ok [n, t, loc, u, keyword, area, now]) := by
  have hred : jsonRow keyword area now
      ⟨some ⟨some n, some t, some ⟨some loc, streetOpt⟩, some u⟩⟩
      = if n = "" then Except.error (PyError.valueError "company name is none.")
        else Except.ok [n, t, loc ++ streetOpt.getD "", u, keyword, area, now] := rfl
  constructor
  · rw [hred, if_neg hn]
  · intro hs
    rw [hred, if_neg hn, hs, String.append_empty]

/-- Witness for C7 at a concrete entry with an absent street part. -/
theorem c7_address_concatenation_witness :
    jsonRow "k" "a" "t" ⟨some ⟨some "N", some "T", some ⟨some "Loc", none⟩, some "U"⟩⟩
      = Except.ok ["N", "T", "Loc" ++ (none : Option String).getD "", "U", "k", "a", "t"]
    ∧ jsonRow "k" "a" "t" ⟨some ⟨some "N", some "T", some ⟨some "Loc", none⟩, some "U"⟩⟩
      = Except.ok ["N", "T", "Loc", "U", "k", "a", "t"] :=
  ⟨(c7_address_concatenation "k" "a" "t" "N" "T" "Loc" "U" none (by decide)).1,
   (c7_address_concatenation "k" "a" "t" "N" "T" "Loc" "U" none (by decide)).2 rfl⟩

@[simp] theorem dictGet_some (a : α) (k : String) : dictGet (some a) k = Except.ok a := rfl

@[simp] theorem dictGet_none (k : String) :
    dictGet (none : Option α) k = Except.error (PyError.keyError k) := rfl

@[simp] theorem ok_bind (a : α) (f : α → Except PyError β) :
    (Except.ok a >>= f) = f a := rfl

@[simp] theorem error_bind (e : PyError) (f : α → Except PyError β) :
    ((Except.error e : Except PyError α) >>= f) = Except.error e := rfl

/-- A row produced by `jsonRow` never has an empty company-name cell: the
empty-name check raises before the row is built. -/
theorem jsonRow_ok_head (keyword area now : String) (e : LdEntry) (r : Row)
    (h : jsonRow keyword area now e = Except.ok r) : r.head? ≠ some "" := by
  rcases e with ⟨item⟩
  cases item with
  | none =>
    rw [show jsonRow keyword area now ⟨none⟩
        = Except.error (PyError.keyError "name") from rfl] at h
    exact absurd h (by simp)
  | some it =>
    rcases it with ⟨nm, tel, addr, url⟩
    cases nm with
    | none =>
      rw [show jsonRow keyword area now ⟨some ⟨none, tel, addr, url⟩⟩
          = Except.error (PyError.keyError "name") from rfl] at h
      exact absurd h (by simp)
    | some n =>
      have hred : jsonRow keyword area now ⟨some ⟨some n, tel, addr, url⟩⟩
          = if n = "" then Except.error (PyError.valueError "company name is none.")
            else
              (dictGet tel "telephone" >>= fun telephone =>
                dictGet (addr.getD emptyLdAddress).addressLocality "addressLocality"
                  >>= fun locality =>
                dictGet url "url" >>= fun u =>
                Except.ok [n, telephone,
                  locality ++ (addr.getD emptyLdAddress).streetAddress.getD "",
                  u, keyword, area, now]) := rfl
      by_cases hn : n = ""
      · rw [hred, if_pos hn] at h
        exact absurd h (by simp)
      · rw [hred, if_neg hn] at h
        cases tel with
        | none => simp at h
        | some t =>
          rcases addr with _ | ⟨lo, st⟩
          · simp [emptyLdAddress] at h
          · cases lo with
            | none => simp at h
            | some l =>
              cases url with
              | none => simp at h
              | some u2 =>
                simp only [dictGet_some, ok_bind, Option.getD_some] at h
                have hr : r = [n, t, l ++ st.getD "", u2, keyword, area, now] := by
                  cases h
                  rfl
                subst hr
                simp [hn]

/-- No row written by `_write_csv_by_json` carries an empty company name. -/
theorem writeCsvByJson_no_empty_name (keyword area now : String) :
    ∀ (entries : List LdEntry) (row : Row),
    row ∈ (writeCsvByJson keyword area now entries).1 → row.head? ≠ some ""
  | [], row, hmem => by simp [writeCsvByJson] at hmem
  | e :: rest, row, hmem => by
    rw [writeCsvByJson] at hmem
    cases hj : jsonRow keyword area now e with
    | error err =>
      rw [hj] at hmem
      simp at hmem
    | ok r0 =>
      rw [hj] at hmem
      rcases hr : writeCsvByJson keyword area now rest with ⟨rows, res⟩
      rw [hr] at hmem
      have hmem2 : row = r0 ∨ row ∈ rows := by
        cases res with
        | ok n => simpa using hmem
        | error err => simpa using hmem
      rcases hmem2 with rfl | hm2
      · exact jsonRow_ok_head keyword area now e row hj
      · have hrec := writeCsvByJson_no_empty_name keyword area now rest row
        rw [hr] at hrec
        exact hrec hm2

/-- C3 (counterexample): on a page that does contain a structured-data block,
the selenium backend still extracts via the DOM scrape — its output is the DOM
container's row, different from what the structured extractor (as run by the
requests backend on the same page) produces. -/
theorem c3_selenium_ignores_structured_block :
    pageWithBlock.jsonLd.isSome = true
    ∧ seleniumProcessPage "k" "a" "t" pageWithBlock
        = ([["B", "06-2222", "Osaka 4-5", "http://b.example", "k", "a", "t"]], Except.ok 1)
    ∧ seleniumProcessPage "k" "a" "t" pageWithBlock
        ≠ requestsProcessPage "k" "a" "t" pageWithBlock := by
  refine ⟨rfl, rfl, ?_⟩
  decide

/-- C3 (amended): under the requests backend, extraction attempts the
structured-data extractor exactly when the block is present and the DOM-scrape
extractor exactly when it is absent (never both), and absence of the block alone
is no error; the selenium backend always DOM-scrapes and never consults the
structured block. -/
theorem c3_extraction_choice_amended (keyword area now : String) (p : Page) :
    (∀ es, p.jsonLd = some es →
      requestsProcessPage keyword area now p = writeCsvByJson keyword area now es)
    ∧ (p.jsonLd = none →
      requestsProcessPage keyword area now p
        = writeCsvByHtml keyword area now (p.topContainers ++ p.bottomContainers))
    ∧ requestsProcessPage keyword area now ⟨none, [], []⟩ = ([], Except.ok 0)
    ∧ seleniumProcessPage keyword area now p
        = seleniumProcessPage keyword area now ⟨none, p.topContainers, p.bottomContainers⟩ := by
  refine ⟨?_, ?_, rfl, rfl⟩
  · intro es hes
    simp [requestsProcessPage, hes]
  · intro hnone
    simp [requestsProcessPage, hnone]

/-- Witness for the amended C3 at concrete pages with and without a block. -/
theorem c3_extraction_choice_amended_witness :
    requestsProcessPage "k" "a" "t" pageWithBlock = writeCsvByJson "k" "a" "t" [ldEntryA]
    ∧ requestsProcessPage "k" "a" "t" ⟨none, [containerB], []⟩
        = writeCsvByHtml "k" "a" "t" ([containerB] ++ [])
    ∧ requestsProcessPage "k" "a" "t" ⟨none, [], []⟩ = ([], Except.ok 0)
    ∧ seleniumProcessPage "k" "a" "t" pageWithBlock
        = seleniumProcessPage "k" "a" "t"
            ⟨none, pageWithBlock.topContainers, pageWithBlock.bottomContainers⟩ :=
  ⟨(c3_extraction_choice_amended "k" "a" "t" pageWithBlock).1 [ldEntryA] rfl,
   (c3_extraction_choice_amended "k" "a" "t" ⟨none, [containerB], []⟩).2.1 rfl,
   (c3_extraction_choice_amended "k" "a" "t" pageWithBlock).2.2.1,
   (c3_extraction_choice_amended "k" "a" "t" pageWithBlock).2.2.2⟩

/-- C4 (counterexample): a DOM container whose company-name element exists but
holds empty text does produce a record, and the appended row's company-name
cell is empty. -/
theorem c4_empty_name_row_appended :
    writeCsvByHtml "k" "a" "t" [containerEmptyName]
      = ([["", "03-0000", "Nagoya 1-1", "", "k", "a", "t"]], Except.ok 1)
    ∧ ["", "03-0000", "Nagoya 1-1", "", "k", "a", "t"].head? = some "" :=
  ⟨rfl, rfl⟩

/-- C4 (amended): a structured entry whose name is absent fails with KeyError
and whose name is empty fails with ValueError, appending nothing; a DOM
container whose name element is absent fails with ValueError, appending
nothing; and no row appended by the structured path ever has an empty company
name.  (A DOM container whose name element is present with empty text is the
exception: it does append an empty-named row — see the counterexample.) -/
theorem c4_missing_name_amended (keyword area now : String) (e : LdEntry)
    (rest : List LdEntry) (c : HtmlContainer) (crest : List HtmlContainer)
    (entries : List LdEntry) :
    ((e.item.getD emptyLdItem).name = none →
      writeCsvByJson keyword area now (e :: rest)
        = ([], Except.error (PyError.keyError "name")))
    ∧ ((e.item.getD emptyLdItem).name = some "" →
      writeCsvByJson keyword area now (e :: rest)
        = ([], Except.error (PyError.valueError "company name is none.")))
    ∧ (c.nameEl = none →
      writeCsvByHtml keyword area now (c :: crest)
        = ([], Except.error (PyError.valueError "company name is none.")))
    ∧ (∀ row ∈ (writeCsvByJson keyword area now entries).1, row.head? ≠ some "") := by
  refine ⟨?_, ?_, ?_, writeCsvByJson_no_empty_name keyword area now entries⟩
  · intro h
    rcases e with ⟨item⟩
    cases item with
    | none => rfl
    | some it =>
      rcases it with ⟨nm, tel, addr, url⟩
      have h2 : nm = none := h
      subst h2
      rfl
  · intro h
    rcases e with ⟨item⟩
    cases item with
    | none => exact Option.noConfusion h
    | some it =>
      rcases it with ⟨nm, tel, addr, url⟩
      have h2 : nm = some "" := h
      subst h2
      rfl
  · intro h
    rcases c with ⟨nameEl, telEl, addrEl, webEl⟩
    have h2 : nameEl = none := h
    subst h2
    rfl

/-- Witness for the amended C4 at concrete entries and containers. -/
theorem c4_missing_name_amended_witness :
    writeCsvByJson "k" "a" "t" [⟨some ⟨none, some "T", none, none⟩⟩]
      = ([], Except.error (PyError.keyError "name"))
    ∧ writeCsvByJson "k" "a" "t" [⟨some ⟨some "", some "T", none, none⟩⟩]
      = ([], Except.error (PyError.valueError "company name is none."))
    ∧ writeCsvByHtml "k" "a" "t" [⟨none, some "X", some "Y", none⟩]
      = ([], Except.error (PyError.valueError "company name is none."))
    ∧ ¬ (["A", "03-1111", "Tokyo1-2-3", "http://a.example", "k", "a", "t"].head? = some "") :=
  ⟨(c4_missing_name_amended "k" "a" "t" ⟨some ⟨none, some "T", none, none⟩⟩ []
      ⟨none, some "X", some "Y", none⟩ [] [ldEntryA]).1 rfl,
   (c4_missing_name_amended "k" "a" "t" ⟨some ⟨some "", some "T", none, none⟩⟩ []
      ⟨none, some "X", some "Y", none⟩ [] [ldEntryA]).2.1 rfl,
   (c4_missing_name_amended "k" "a" "t" ldEntryA []
      ⟨none, some "X", some "Y", none⟩ [] [ldEntryA]).2.2.1 rfl,
   (c4_missing_name_amended "k" "a" "t" ldEntryA []
      ⟨none, some "X", some "Y", none⟩ [] [ldEntryA]).2.2.2
     ["A", "03-1111", "Tokyo1-2-3", "http://a.example", "k", "a", "t"] (by decide)⟩

/-- C5 (counterexample): a run whose `_write_csv` raises a fetch error is an
unrecovered failure, yet the process exits with status 0 — `create` catches
the exception and returns normally, so nothing escapes `main`. -/
theorem c5_failed_run_exits_zero :
    createBodyOutcome none none (Except.error PyError.fetchError)
      = Except.error PyError.fetchError
    ∧ runExitCode none none (Except.error PyError.fetchError) = 0 :=
  ⟨rfl, rfl⟩

/-- C5 (amended): every run that reaches `creator.create()` exits with status
zero, whether it fails or completes all areas, because `create` catches every
exception of its body. -/
theorem c5_exit_code_amended (setUpErr tearDownErr : Option PyError)
    (writeOutcome : Except PyError Unit) :
    runExitCode setUpErr tearDownErr writeOutcome = 0 := by
  cases setUpErr with
  | some e => rfl
  | none =>
    cases writeOutcome with
    | error e => rfl
    | ok u =>
      cases u
      cases tearDownErr with
      | some e => rfl
      | none => rfl

/-- C6 (counterexample): a selenium run whose `_write_csv` raises ends with the
browsing session still open and never torn down: the failure handler only
deletes the output file. -/
theorem c6_failure_leaves_driver_open :
    (seleniumCreate true [] (Except.error PyError.fetchError) none
      ⟨false, 0, some [CSV_HEADER]⟩).driverOpen = true
    ∧ (seleniumCreate true [] (Except.error PyError.fetchError) none
      ⟨false, 0, some [CSV_HEADER]⟩).driverCloseCount = 0 :=
  ⟨rfl, rfl⟩

/-- C6 (amended): on the success path the browsing session is closed exactly
once as the final step of `_tearDown`; on every failure path (a raising
`_write_csv`, or a raising `rmtree` inside `_tearDown` before the close) the
session stays open with zero closes; an unknown browser never opens one. -/
theorem c6_driver_teardown_amended (rows : List Row) (outcome : Except PyError Unit)
    (tdErr : Option PyError) (fs0 : Option (List Row)) :
    (outcome = Except.ok () → tdErr = none →
      (seleniumCreate true rows outcome tdErr ⟨false, 0, fs0⟩).driverOpen = false
      ∧ (seleniumCreate true rows outcome tdErr ⟨false, 0, fs0⟩).driverCloseCount = 1)
    ∧ (∀ e, outcome = Except.error e →
      (seleniumCreate true rows outcome tdErr ⟨false, 0, fs0⟩).driverOpen = true
      ∧ (seleniumCreate true rows outcome tdErr ⟨false, 0, fs0⟩).driverCloseCount = 0)
    ∧ (∀ e, outcome = Except.ok () → tdErr = some e →
      (seleniumCreate true rows outcome tdErr ⟨false, 0, fs0⟩).driverOpen = true
      ∧ (seleniumCreate true rows outcome tdErr ⟨false, 0, fs0⟩).driverCloseCount = 0)
    ∧ (seleniumCreate false rows outcome tdErr ⟨false, 0, fs0⟩).driverOpen = false
    ∧ (seleniumCreate false rows outcome tdErr ⟨false, 0, fs0⟩).driverCloseCount = 0 := by
  refine ⟨?_, ?_, ?_, rfl, rfl⟩
  · intro ho ht
    subst ho
    subst ht
    exact ⟨rfl, rfl⟩
  · intro e ho
    subst ho
    exact ⟨rfl, rfl⟩
  · intro e ho ht
    subst ho
    subst ht
    exact ⟨rfl, rfl⟩

/-- Witness for the amended C6: one successful run (session closed once) and
one failing run (session left open). -/
theorem c6_driver_teardown_amended_witness :
    ((seleniumCreate true [] (Except.ok ()) none ⟨false, 0, none⟩).driverOpen = false
      ∧ (seleniumCreate true [] (Except.ok ()) none ⟨false, 0, none⟩).driverCloseCount = 1)
    ∧ ((seleniumCreate true [] (Except.error PyError.fetchError) none
          ⟨false, 0, none⟩).driverOpen = true
      ∧ (seleniumCreate true [] (Except.error PyError.fetchError) none
          ⟨false, 0, none⟩).driverCloseCount = 0) :=
  ⟨(c6_driver_teardown_amended [] (Except.ok ()) none none).1 rfl rfl,
   (c6_driver_teardown_amended [] (Except.error PyError.fetchError) none none).2.1
     PyError.fetchError rfl⟩

/-- C1: whenever `create` catches any error (setup, fetch, extraction or sink
write surface through `_write_csv`, teardown), the failure handler leaves no
output artifact; and when it catches none, the artifact is the header followed
by exactly the rows of the completed area loop — so a run ends with either a
complete CSV or no artifact at all. -/
theorem c1_artifact_all_or_nothing (setUpErr tearDownErr : Option PyError)
    (proc : String → Nat → List Row × Except PyError Nat) (fuel : Nat)
    (areas : List String) (fs0 : Option (List Row)) :
    ((createRequests setUpErr tearDownErr proc fuel areas fs0).2.isSome = true →
      (createRequests setUpErr tearDownErr proc fuel areas fs0).1 = none)
    ∧ ((createRequests setUpErr tearDownErr proc fuel areas fs0).2 = none →
      (createRequests setUpErr tearDownErr proc fuel areas fs0).1
        = some (CSV_HEADER :: (writeCsvRun proc fuel areas).1)
      ∧ (writeCsvRun proc fuel areas).2 = Except.ok ()) := by
  unfold createRequests
  cases setUpErr with
  | some e =>
    refine ⟨fun _ => ?_, fun hc => by simp at hc⟩
    cases fs0 <;> rfl
  | none =>
    rcases hw : writeCsvRun proc fuel areas with ⟨rows, res⟩
    cases res with
    | error e => exact ⟨fun _ => rfl, fun hc => by simp at hc⟩
    | ok u =>
      cases u
      cases tearDownErr with
      | some e => exact ⟨fun _ => rfl, fun hc => by simp at hc⟩
      | none => exact ⟨fun hs => by simp at hs, fun _ => ⟨rfl, rfl⟩⟩

/-- Witness for C1: a run with a setup error ends with no artifact; a clean
one-area run ends with the header-only artifact (its single page is short, so
the area completes) and a completed loop. -/
theorem c1_artifact_all_or_nothing_witness :
    (createRequests (some PyError.fetchError) none (fun _ _ => ([], Except.ok 0)) 1
      ["X"] (some [CSV_HEADER])).1 = none
    ∧ (createRequests none none (fun _ _ => ([], Except.ok 0)) 1 ["X"] none).1
        = some (CSV_HEADER
            :: (writeCsvRun (fun _ _ => ([], Except.ok 0)) 1 ["X"]).1)
    ∧ (writeCsvRun (fun _ _ => ([], Except.ok 0)) 1 ["X"]).2 = Except.ok () :=
  ⟨(c1_artifact_all_or_nothing (some PyError.fetchError) none
      (fun _ _ => ([], Except.ok 0)) 1 ["X"] (some [CSV_HEADER])).1 rfl,
   (c1_artifact_all_or_nothing none none
      (fun _ _ => ([], Except.ok 0)) 1 ["X"] none).2 rfl⟩

/-- C9: two runs whose keyword arguments differ only in the `retry` value are
indistinguishable — construction and the whole fetch/extract/write run produce
identical results, because nothing ever reads `kwargs['retry']`. -/
theorem c9_retry_count_unused (k : Kwargs) (r1 r2 : Option Nat)
    (fetch : String → Nat → Page) (now : String) (fuel : Nat)
    (fs0 : Option (List Row)) :
    mainFromKwargs { k with retry := r1 } fetch now fuel fs0
      = mainFromKwargs { k with retry := r2 } fetch now fuel fs0 := rfl

/-- C10: for every command-line invocation through scraping_tp.py, the kwargs
dictionary built by `get_args` lacks the `interval` key while
`CsvCreator.__init__` reads it, so the factory raises `KeyError('interval')`
during construction; `main` therefore stops before any fetch or any write, and
the pre-existing artifact state is untouched. -/
theorem c10_cli_interval_keyerror (keyword : String) (lib : LibChoice)
    (browser : BrowserChoice) (timeout retry : Nat) (s : Settings)
    (fetch : String → Nat → Page) (now : String) (fuel : Nat)
    (fs0 : Option (List Row)) :
    createCsvCreator (getArgs keyword lib browser timeout retry s)
      = Except.error (PyError.keyError "interval")
    ∧ mainFromKwargs (getArgs keyword lib browser timeout retry s) fetch now fuel fs0
      = (fs0, Except.error (PyError.keyError "interval")) := by
  cases lib <;> exact ⟨rfl, rfl⟩

/-- C8: for a local (non-http) locator `d ++ '/' :: f` whose basename `f` is
slash-free, occurs nowhere earlier in the locator, and carries no query or
fragment, and for page `p ≥ 1` with page offset `(p-1)*20`, `_search_url`
resolves to the locator with its filename replaced by the part of the base
filename before the first underscore, an underscore, the page number zero-padded
to two digits, and the original extension; and the fetch of a non-http locator
is a local file read, not a network call. -/
theorem c8_local_locator_resolution (d f areaParam keywordParam : List Char) (p : Nat)
    (hp : 1 ≤ p)
    (hhttp : startsWithHttp (d ++ '/' :: f) = false)
    (hq : '?' ∉ d ++ '/' :: f)
    (hh : '#' ∉ d ++ '/' :: f)
    (hsl : '/' ∉ f)
    (hf : f ≠ [])
    (huniq : ∀ i, i < (d ++ ['/']).length →
      f.isPrefixOf (((d ++ ['/']) ++ f).drop i) = false) :
    searchUrl (d ++ '/' :: f) ((p - 1) * 20) areaParam keywordParam
      = d ++ '/' :: (takeUntil '_' (splitextList f).1
          ++ '_' :: (zfill 2 (Nat.repr p).toList ++ (splitextList f).2))
    ∧ (beautifulSoupTarget (d ++ '/' :: f) ((p - 1) * 20)).1 = FetchKind.localFile := by
  have harith : (p - 1) * 20 / 20 + 1 = p := by
    rw [Nat.mul_div_cancel (p - 1) (by norm_num)]
    omega
  constructor
  · unfold searchUrl pathOfUri
    rw [hhttp]
    simp only [Bool.false_eq_true, if_false]
    rw [takeUntil_of_not_mem hh, takeUntil_of_not_mem hq, afterLastSlash_append d f hsl,
      harith]
    have hrw : d ++ '/' :: f = (d ++ ['/']) ++ f := by simp
    rw [hrw, replaceAll_of_unique f _ (d ++ ['/']) hf huniq]
    simp
  · unfold beautifulSoupTarget
    rw [hhttp]
    simp

/-- Witness for C8 on the fixture-style locator
`file:///opt/static/html/kaigo_01.html` at page 2 (offset 20): the resolved
target is `.../kaigo_02.html`, read locally. -/
theorem c8_local_locator_resolution_witness :
    searchUrl ("file:///opt/static/html".toList ++ '/' :: "kaigo_01.html".toList)
        ((2 - 1) * 20) [] []
      = "file:///opt/static/html".toList
          ++ '/' :: (takeUntil '_' (splitextList "kaigo_01.html".toList).1
              ++ '_' :: (zfill 2 (Nat.repr 2).toList
                  ++ (splitextList "kaigo_01.html".toList).2))
    ∧ (beautifulSoupTarget
        ("file:///opt/static/html".toList ++ '/' :: "kaigo_01.html".toList)
        ((2 - 1) * 20)).1 = FetchKind.localFile :=
  c8_local_locator_resolution "file:///opt/static/html".toList "kaigo_01.html".toList
    [] [] 2 (by decide) (by decide) (by decide) (by decide) (by decide) (by decide)
    (by decide)

end ScrapingTp
